import Mathlib

/-!
Verification of the Click-Analytics Ingestion Pipeline of GURLS-Backend.

The definitions below are a shallow embedding of the Go source:
- `internal/analytics/processor.go` (queue submission, lifecycle, worker
  retry loop, fallback device classification),
- `internal/grpc/server/server.go` (the `RedirectAndRecord` fallback path).

Go strings are modelled as lists of byte values, Go `int`/`int64`
arithmetic as `Int` with explicit two's-complement wrapping where
overflow matters, and the scheduler's choices (Go `select` with several
ready cases) as explicit choice parameters.
-/

namespace GURLS

/-- Go strings viewed as byte sequences. -/
abbrev GoStr := List Nat

/-- Byte values of an ASCII Lean string literal, used to write concrete
Go strings such as the device-token constants of the source. -/
def asciiBytes (s : String) : GoStr := s.data.map Char.toNat

/-- One byte of `toLower` from processor.go: bytes in `'A'..'Z'`
(65..90) get `'a' - 'A' = 32` added, all other bytes pass through. -/
def toLowerByte (b : Nat) : Nat := if 65 ≤ b ∧ b ≤ 90 then b + 32 else b

/-- `toLower` from processor.go: byte-wise lowering of a Go string. -/
def toLower (s : GoStr) : GoStr := s.map toLowerByte

/-- `windowEq sub s` is the slice comparison `s[i:i+len(sub)] == sub`
at the head of `s`: true iff `sub` is an initial segment of `s`. -/
def windowEq : GoStr → GoStr → Bool
  | [], _ => true
  | _ :: _, [] => false
  | a :: as, b :: bs => a == b && windowEq as bs

/-- The scan loop of `containsIgnoreCase`: try the window comparison at
every start position of `s`. -/
def scanWindows (sub : GoStr) : GoStr → Bool
  | [] => windowEq sub []
  | s@(_ :: rest) => windowEq sub s || scanWindows sub rest

/-- `containsIgnoreCase` from processor.go: empty string or empty
pattern yield false; otherwise both are lowered and the pattern is
searched at every window of the string. -/
def containsIgnoreCase (str sub : GoStr) : Bool :=
  if str = [] ∨ sub = [] then false
  else scanWindows (toLower sub) (toLower str)

/-- The fallback device heuristic of `processClick` (processor.go,
parser-unavailable branch): substring checks for mobile, tablet and bot
tokens, defaulting to desktop. -/
def fallbackDeviceType (ua : GoStr) : String :=
  if containsIgnoreCase ua (asciiBytes "Mobile") || containsIgnoreCase ua (asciiBytes "Android") ||
      containsIgnoreCase ua (asciiBytes "iPhone") then "mobile"
  else if containsIgnoreCase ua (asciiBytes "Tablet") || containsIgnoreCase ua (asciiBytes "iPad") then "tablet"
  else if containsIgnoreCase ua (asciiBytes "bot") || containsIgnoreCase ua (asciiBytes "Bot") ||
      containsIgnoreCase ua (asciiBytes "Spider") then "bot"
  else "desktop"

/-- The device type `processClick` passes to the durable store when the
global user-agent parser is unavailable: it starts from `"unknown"` and
is replaced by the fallback heuristic exactly when a user agent is
present. -/
def processClickDeviceType (ua : Option GoStr) : String :=
  match ua with
  | none => "unknown"
  | some s => fallbackDeviceType s

/-! ## Durable store and the retry loop (`processClickWithRetry`) -/

/-- Failure modes of `Storage.RecordClickAdvanced` as seen by the worker:
`repository.ErrAliasNotFound` (the non-retryable error of the spec) or any
other, transient, failure. A successful call is `none` below. -/
inductive StoreErr
  | aliasNotFound
  | transient
deriving DecidableEq

/-- Outcome of `processClickWithRetry` for one event. -/
inductive RetryOutcome
  | success (attempt : Nat)
  | droppedAllFailed
  | shutdownDuringDelay (attempt : Nat)
deriving DecidableEq

/-- The retry loop of `processClickWithRetry` (processor.go): attempts are
numbered from `attempt`; `resultAt k` is what the store returns at the k-th
call, `cancelled k` whether the shutdown signal fires during the backoff
wait after failed attempt k. `fuel` bounds the recursion; the loop runs at
most through attempt `maxAttempts`. Returns the outcome together with the
number of `processClick` (store) calls made. -/
def retryGo (resultAt : Nat → Option StoreErr) (cancelled : Nat → Bool)
    (maxAttempts : Nat) : Nat → Nat → RetryOutcome × Nat
  | _, 0 => (.droppedAllFailed, 0)
  | attempt, fuel + 1 =>
    match resultAt attempt with
    | none => (.success attempt, 1)
    | some _ =>
      if attempt = maxAttempts then (.droppedAllFailed, 1)
      else if cancelled attempt then (.shutdownDuringDelay attempt, 1)
      else
        let r := retryGo resultAt cancelled maxAttempts (attempt + 1) fuel
        (r.1, r.2 + 1)

/-- `processClickWithRetry` from processor.go: the loop
`for attempt := 1; attempt <= p.config.RetryAttempts; attempt++`, returning
on the first successful store call, breaking on the last attempt, and
returning early when the shutdown signal fires during a backoff wait. -/
def processClickWithRetry (resultAt : Nat → Option StoreErr)
    (cancelled : Nat → Bool) (retryAttempts : Nat) : RetryOutcome × Nat :=
  retryGo resultAt cancelled retryAttempts 1 retryAttempts

/-- Two's-complement wrap of an integer into the Go `int64` range. -/
def wrap64 (x : Int) : Int := (x + 2 ^ 63) % 2 ^ 64 - 2 ^ 63

/-- Go `1 << n` at type `int` (64-bit). -/
def goShl1 (n : Nat) : Int := wrap64 (2 ^ n)

/-- The backoff delay computed after failed attempt `attempt`
(processor.go: `delay := p.config.RetryDelay * time.Duration(1<<(attempt-1))`),
in Go `int64` (nanosecond) arithmetic. -/
def backoffDelay (retryDelay : Int) (attempt : Nat) : Int :=
  wrap64 (retryDelay * goShl1 (attempt - 1))

/-! ## Processor lifecycle (`Start` / `Stop` / `SubmitClick`) -/

/-- `ProcessorConfig` from processor.go. Durations are nanosecond counts. -/
structure ProcessorConfig where
  workerCount : Nat
  bufferSize : Nat
  retryAttempts : Nat
  retryDelay : Int
  shutdownTimeout : Int
  maxBatchSize : Nat
  batchTimeout : Int
deriving DecidableEq

/-- `DefaultConfig()` from processor.go. -/
def defaultConfig : ProcessorConfig :=
  { workerCount := 3, bufferSize := 1000, retryAttempts := 3,
    retryDelay := 1000000000, shutdownTimeout := 30000000000,
    maxBatchSize := 10, batchTimeout := 5000000000 }

/-- `ClickData` from processor.go (`alias` is a reserved word in Lean, so
the field is `aliasName`). -/
structure ClickData where
  aliasName : GoStr
  ipAddress : Option GoStr
  userAgent : Option GoStr
  referer : Option GoStr
  clickedAt : Option Int
deriving DecidableEq

/-- The mutable state of a `Processor`: the buffered channel contents, the
closed flag of the channel, the cancellation flag of the processor context,
the `started` flag, and the number of live worker goroutines. -/
structure Processor where
  config : ProcessorConfig
  jobQueue : List ClickData
  queueClosed : Bool
  ctxCancelled : Bool
  started : Bool
  workers : Nat
deriving DecidableEq

/-- `NewProcessor` from processor.go. -/
def newProcessor (cfg : ProcessorConfig) : Processor :=
  { config := cfg, jobQueue := [], queueClosed := false,
    ctxCancelled := false, started := false, workers := 0 }

inductive StartResult
  | ok
  | alreadyStarted
deriving DecidableEq

inductive StopResult
  | ok
  | notStarted
  | shutdownTimeout
deriving DecidableEq

inductive SubmitResult
  | ok
  | errNotStarted
  | errShuttingDown
  | errQueueFull
  | panicSendOnClosed
deriving DecidableEq

/-- The error class the spec calls `NotRunning`: Go returns
"processor not started" or "processor is shutting down". -/
def SubmitResult.isNotRunning : SubmitResult → Bool
  | .errNotStarted => true
  | .errShuttingDown => true
  | _ => false

/-- `Start` from processor.go: under the lock, fail if already started,
otherwise launch `WorkerCount` worker goroutines and set the flag. -/
def start (p : Processor) : StartResult × Processor :=
  if p.started then (.alreadyStarted, p)
  else (.ok, { p with workers := p.workers + p.config.workerCount, started := true })

/-- `Stop` from processor.go: under the lock, fail if not started;
otherwise cancel the context, close the job queue, and wait for the
workers with the shutdown timeout. `drainsInTime` says whether
`wg.Wait()` finishes before `ShutdownTimeout`; on timeout the function
returns early, leaving `started` true. -/
def stop (p : Processor) (drainsInTime : Bool) : StopResult × Processor :=
  if !p.started then (.notStarted, p)
  else
    let p1 := { p with ctxCancelled := true, queueClosed := true }
    if drainsInTime then (.ok, { p1 with started := false, workers := 0 })
    else (.shutdownTimeout, p1)

/-- `SubmitClick` from processor.go: under the read lock, fail if not
started; otherwise a `select` over sending on the job queue, the done
context, and a `default` branch. A send case is ready when the channel is
closed (executing it would panic) or the buffer has room; the done case is
ready when the context is cancelled; with no ready case the `default`
branch reports a full queue. When several cases are ready Go picks one at
random: `pickDone` is that scheduler choice. -/
def submitClick (p : Processor) (e : ClickData) (pickDone : Bool) :
    SubmitResult × Processor :=
  if !p.started then (.errNotStarted, p)
  else
    let sendReady : Bool := p.queueClosed || decide (p.jobQueue.length < p.config.bufferSize)
    let doneReady : Bool := p.ctxCancelled
    if sendReady && doneReady then
      if pickDone then (.errShuttingDown, p)
      else if p.queueClosed then (.panicSendOnClosed, p)
      else (.ok, { p with jobQueue := p.jobQueue ++ [e] })
    else if sendReady then
      if p.queueClosed then (.panicSendOnClosed, p)
      else (.ok, { p with jobQueue := p.jobQueue ++ [e] })
    else if doneReady then (.errShuttingDown, p)
    else (.errQueueFull, p)

/-- Clean lifecycle states: whenever the processor is started, its context
is not cancelled and its queue is not closed. All states reachable through
`newProcessor`, `start`, `submitClick` and a `stop` that drains in time
satisfy this; only the fatal `stop`-timeout path leaves it. -/
def CleanState (p : Processor) : Prop :=
  p.started = true → p.ctxCancelled = false ∧ p.queueClosed = false

/-! ## Worker loop (`worker`), used for the shutdown-drain analysis -/

/-- The scheduler's resolution of the worker `select` when both the
queue-receive case and the done case are ready. -/
inductive SelectChoice
  | takeJob
  | takeDone
deriving DecidableEq

/-- State of one worker goroutine together with the channel and the
record of its externally visible actions: `attempted` lists events for
which `RecordClickAdvanced` was invoked at least once, `reportedDropped`
those reported dropped after exhausting all retries. -/
structure WorkerState where
  jobQueue : List ClickData
  queueClosed : Bool
  ctxCancelled : Bool
  attempted : List ClickData
  reportedDropped : List ClickData
  exited : Bool
deriving DecidableEq

/-- The queue-receive branch of `worker` (processor.go): a receive on a
closed empty channel yields nil and the worker returns; otherwise the
head event is processed by `processClickWithRetry`. A context already
cancelled is observed by the backoff select of every retry wait. -/
def workerTakeJob (store : ClickData → Nat → Option StoreErr)
    (retryAttempts : Nat) (s : WorkerState) : WorkerState :=
  match s.jobQueue with
  | [] => { s with exited := true }
  | e :: rest =>
    let r := processClickWithRetry (store e) (fun _ => s.ctxCancelled) retryAttempts
    let s1 := { s with
      jobQueue := rest,
      attempted := if 1 ≤ r.2 then s.attempted ++ [e] else s.attempted,
      reportedDropped :=
        if r.1 = RetryOutcome.droppedAllFailed then s.reportedDropped ++ [e]
        else s.reportedDropped }
    match r.1 with
    | .shutdownDuringDelay _ => { s1 with exited := true }
    | _ => s1

/-- One iteration of the `worker` loop (processor.go): a `select` over
receiving from the job queue and the done context. The receive case is
ready when the channel is closed or non-empty; the done case when the
context is cancelled; when both are ready the scheduler's `choice`
decides; with neither the worker blocks (no state change). -/
def workerStep (store : ClickData → Nat → Option StoreErr)
    (retryAttempts : Nat) (choice : SelectChoice) (s : WorkerState) :
    WorkerState :=
  if s.exited then s
  else
    let jobReady : Bool := s.queueClosed || !s.jobQueue.isEmpty
    let doneReady : Bool := s.ctxCancelled
    if jobReady && doneReady then
      match choice with
      | .takeDone => { s with exited := true }
      | .takeJob => workerTakeJob store retryAttempts s
    else if jobReady then workerTakeJob store retryAttempts s
    else if doneReady then { s with exited := true }
    else s

/-- Run the worker loop under a finite schedule of select resolutions. -/
def workerRun (store : ClickData → Nat → Option StoreErr)
    (retryAttempts : Nat) : List SelectChoice → WorkerState → WorkerState
  | [], s => s
  | c :: cs, s => workerRun store retryAttempts cs (workerStep store retryAttempts c s)

/-- A store that accepts every record call at once. -/
def alwaysOkStore : ClickData → Nat → Option StoreErr := fun _ _ => none

/-- The event of the shutdown-drain scenario. -/
def sampleClick : ClickData :=
  { aliasName := asciiBytes "abc123", ipAddress := none, userAgent := none,
    referer := none, clickedAt := none }

/-- Default configuration restricted to a single worker. -/
def oneWorkerConfig : ProcessorConfig := { defaultConfig with workerCount := 1 }

/-- Lifecycle trace of the shutdown-drain scenario: construct, start,
accept one event. -/
def c1Proc0 : Processor := newProcessor oneWorkerConfig

def c1Proc1 : Processor := (start c1Proc0).2

def c1Proc2 : Processor := (submitClick c1Proc1 sampleClick false).2

/-- What the single worker sees right after `Stop` has cancelled the
context and closed the queue, with the accepted event still buffered. -/
def c1WorkerView : WorkerState :=
  { jobQueue := [sampleClick], queueClosed := true, ctxCancelled := true,
    attempted := [], reportedDropped := [], exited := false }

/-! ## `RedirectAndRecord` fallback path (internal/grpc/server/server.go) -/

/-- Externally visible outcome of the tail of `RedirectAndRecord`:
how many synchronous fallback `RecordClickAdvanced` calls were made, the
device type passed to them, whether a fallback failure was merely logged,
and the response (carrying the original URL) returned to the client. -/
structure RedirectOutcome where
  fallbackCalls : Nat
  fallbackDeviceType : Option String
  fallbackErrLogged : Bool
  responseUrl : Option GoStr
deriving DecidableEq

/-- The tail of `RedirectAndRecord` (server.go, after the link lookup):
when `SubmitClick` returns any error, one synchronous
`RecordClickAdvanced` with device type `"unknown"` is made; its failure is
logged and otherwise ignored; the response with the original URL is
returned in every case. -/
def redirectAndRecordTail (originalUrl : GoStr) (submitRes : SubmitResult)
    (fallbackFails : Bool) : RedirectOutcome :=
  if submitRes = SubmitResult.ok then
    { fallbackCalls := 0, fallbackDeviceType := none,
      fallbackErrLogged := false, responseUrl := some originalUrl }
  else
    { fallbackCalls := 1, fallbackDeviceType := some "unknown",
      fallbackErrLogged := fallbackFails, responseUrl := some originalUrl }

/-! ## Helper lemmas -/

/-- The fallback heuristic can only answer one of its four literals. -/
theorem fallbackDeviceType_cases (ua : GoStr) :
    fallbackDeviceType ua = "mobile" ∨ fallbackDeviceType ua = "tablet"
    ∨ fallbackDeviceType ua = "bot" ∨ fallbackDeviceType ua = "desktop" := by
  unfold fallbackDeviceType
  split_ifs <;> simp

/-- The retry loop makes at most `fuel` store calls. -/
theorem retryGo_count_le (r : Nat → Option StoreErr) (c : Nat → Bool) (m : Nat) :
    ∀ fuel attempt, (retryGo r c m attempt fuel).2 ≤ fuel := by
  intro fuel
  induction fuel with
  | zero => intro attempt; simp [retryGo]
  | succ f ih =>
    intro attempt
    cases hr : r attempt with
    | none => simp [retryGo, hr]
    | some e =>
      by_cases hm : attempt = m
      · subst hm
        simp [retryGo, hr]
      · by_cases hc : c attempt = true
        · simp [retryGo, hr, hm, hc]
        · simp [retryGo, hr, hm, hc]
          have := ih (attempt + 1)
          omega

/-- If the first success comes at attempt `j` (within budget, with no
earlier cancellation), the loop returns success at `j` having made
exactly the calls up to `j`. -/
theorem retryGo_success (r : Nat → Option StoreErr) (c : Nat → Bool) (m : Nat) :
    ∀ fuel attempt j, attempt ≤ j → j ≤ m →
    (∀ a, attempt ≤ a → a < j → (r a).isSome = true ∧ c a = false) →
    r j = none → j + 1 ≤ attempt + fuel →
    retryGo r c m attempt fuel = (.success j, j + 1 - attempt) := by
  intro fuel
  induction fuel with
  | zero => intro attempt j h1 h2 h3 h4 h5; omega
  | succ f ih =>
    intro attempt j h1 h2 h3 h4 h5
    by_cases heq : attempt = j
    · subst heq
      simp [retryGo, h4]
    · have hlt : attempt < j := lt_of_le_of_ne h1 heq
      have hsome : (r attempt).isSome = true := (h3 attempt le_rfl hlt).1
      have hcf : c attempt = false := (h3 attempt le_rfl hlt).2
      cases hr : r attempt with
      | none => rw [hr] at hsome; simp at hsome
      | some e =>
        have hm : ¬attempt = m := by omega
        have hrec := ih (attempt + 1) j (by omega) h2
          (fun a ha hb => h3 a (by omega) hb) h4 (by omega)
        simp only [retryGo, hr, if_neg hm, hcf, if_neg (by simp : ¬(false = true))]
        rw [hrec]
        simp
        omega

/-- If every attempt up to the budget fails and the shutdown signal never
fires, the loop exhausts the budget and reports the drop. -/
theorem retryGo_allfail (r : Nat → Option StoreErr) (c : Nat → Bool) (m : Nat) :
    ∀ fuel attempt, attempt ≤ m → attempt + fuel = m + 1 →
    (∀ a, attempt ≤ a → a ≤ m → (r a).isSome = true) →
    (∀ a, c a = false) →
    retryGo r c m attempt fuel = (.droppedAllFailed, m + 1 - attempt) := by
  intro fuel
  induction fuel with
  | zero => intro attempt h1 h2 h3 h4; omega
  | succ f ih =>
    intro attempt h1 h2 h3 h4
    have hsome : (r attempt).isSome = true := h3 attempt le_rfl h1
    cases hr : r attempt with
    | none => rw [hr] at hsome; simp at hsome
    | some e =>
      by_cases hm : attempt = m
      · subst hm
        simp [retryGo, hr]
      · have hrec := ih (attempt + 1) (by omega) (by omega)
          (fun a ha hb => h3 a (by omega) hb) h4
        simp only [retryGo, hr, if_neg hm, h4 attempt,
          if_neg (by simp : ¬(false = true))]
        rw [hrec]
        simp
        omega

/-- The retry loop never inspects which error the store returned, only
whether it returned one. -/
theorem retryGo_error_blind (r r2 : Nat → Option StoreErr) (c : Nat → Bool) (m : Nat)
    (h : ∀ a, (r a).isSome = (r2 a).isSome) :
    ∀ fuel attempt, retryGo r c m attempt fuel = retryGo r2 c m attempt fuel := by
  intro fuel
  induction fuel with
  | zero => intro attempt; rfl
  | succ f ih =>
    intro attempt
    cases hr : r attempt with
    | none =>
      cases hr2 : r2 attempt with
      | none => simp [retryGo, hr, hr2]
      | some e =>
        have hx := h attempt
        rw [hr, hr2] at hx
        simp at hx
    | some e =>
      cases hr2 : r2 attempt with
      | none =>
        have hx := h attempt
        rw [hr, hr2] at hx
        simp at hx
      | some e2 => simp [retryGo, hr, hr2, ih]

/-- `wrap64` only depends on the residue modulo `2^64`. -/
theorem wrap64_congr (x y : Int) (h : x % 2 ^ 64 = y % 2 ^ 64) :
    wrap64 x = wrap64 y := by
  unfold wrap64
  omega

/-- `wrap64` preserves the residue modulo `2^64`. -/
theorem wrap64_emod (x : Int) : wrap64 x % 2 ^ 64 = x % 2 ^ 64 := by
  unfold wrap64
  omega

/-- `wrap64` is the identity on the `int64` range. -/
theorem wrap64_eq_self (x : Int) (h1 : -(2 ^ 63) ≤ x) (h2 : x < 2 ^ 63) :
    wrap64 x = x := by
  unfold wrap64
  omega

/-- Wrapping the shifted factor first does not change the wrapped product. -/
theorem wrap64_mul_wrap64 (d x : Int) : wrap64 (d * wrap64 x) = wrap64 (d * x) := by
  apply wrap64_congr
  conv_lhs => rw [Int.mul_emod]
  rw [wrap64_emod, ← Int.mul_emod]

/-! ## Claim theorems -/

/-- Claim C9: the fallback device classification is a deterministic pure
function of the user-agent string: applied twice to the same string it
yields the same category both times. (The Go source `processClick`
fallback uses only the pure byte functions `containsIgnoreCase` and
`toLower`, embedded here as pure functions, so the two applications agree
definitionally.) -/
theorem fallback_classification_deterministic (ua ua2 : GoStr) (h : ua = ua2) :
    fallbackDeviceType ua = fallbackDeviceType ua2 := by rw [h]

theorem fallback_classification_deterministic_witness :
    fallbackDeviceType (asciiBytes "Mozilla/5.0 (iPhone; CPU iPhone OS)")
      = fallbackDeviceType (asciiBytes "Mozilla/5.0 (iPhone; CPU iPhone OS)") :=
  fallback_classification_deterministic _ _ rfl

/-- Claim C10: with the global parser unavailable, `processClick` passes
device type `"unknown"` to the durable store exactly when the event has no
user agent; for every present user agent the fallback heuristic answers
one of `"mobile"`, `"tablet"`, `"bot"`, `"desktop"` (defaulting to
`"desktop"`), never `"unknown"`. -/
theorem device_unknown_iff_no_user_agent (ua : Option GoStr) :
    (processClickDeviceType ua = "unknown" ↔ ua = none)
    ∧ (∀ s, ua = some s →
        processClickDeviceType ua = "mobile" ∨ processClickDeviceType ua = "tablet"
        ∨ processClickDeviceType ua = "bot" ∨ processClickDeviceType ua = "desktop") := by
  cases ua with
  | none => simp [processClickDeviceType]
  | some s =>
    have hc := fallbackDeviceType_cases s
    constructor
    · simp only [processClickDeviceType]
      constructor
      · intro h
        rcases hc with h4 | h4 | h4 | h4 <;> rw [h4] at h <;> simp at h
      · intro h; cases h
    · intro t ht
      simpa [processClickDeviceType] using hc

theorem device_unknown_iff_no_user_agent_witness :
    (processClickDeviceType (some (asciiBytes "curl/8.0")) = "unknown"
        ↔ (some (asciiBytes "curl/8.0") : Option GoStr) = none)
    ∧ (processClickDeviceType (some (asciiBytes "curl/8.0")) = "mobile"
        ∨ processClickDeviceType (some (asciiBytes "curl/8.0")) = "tablet"
        ∨ processClickDeviceType (some (asciiBytes "curl/8.0")) = "bot"
        ∨ processClickDeviceType (some (asciiBytes "curl/8.0")) = "desktop") :=
  ⟨(device_unknown_iff_no_user_agent (some (asciiBytes "curl/8.0"))).1,
   (device_unknown_iff_no_user_agent (some (asciiBytes "curl/8.0"))).2 _ rfl⟩

/-- Claim C8: whenever `SubmitClick` returns an error (queue full or not
running), `RedirectAndRecord` makes exactly one synchronous un-retried
`RecordClickAdvanced` call with the degraded device category `"unknown"`,
and even if that fallback call fails the redirect response with the
original URL is still returned. -/
theorem redirect_fallback_degraded_write (url : GoStr) (r : SubmitResult) (fb : Bool)
    (h : r = .errQueueFull ∨ r = .errNotStarted ∨ r = .errShuttingDown) :
    (redirectAndRecordTail url r fb).fallbackCalls = 1
    ∧ (redirectAndRecordTail url r fb).fallbackDeviceType = some "unknown"
    ∧ (redirectAndRecordTail url r fb).responseUrl = some url := by
  rcases h with h | h | h <;> subst h <;> simp [redirectAndRecordTail]

theorem redirect_fallback_degraded_write_witness :
    (redirectAndRecordTail (asciiBytes "https://example.com") .errQueueFull true).fallbackCalls = 1
    ∧ (redirectAndRecordTail (asciiBytes "https://example.com") .errQueueFull true).fallbackDeviceType
        = some "unknown"
    ∧ (redirectAndRecordTail (asciiBytes "https://example.com") .errQueueFull true).responseUrl
        = some (asciiBytes "https://example.com") :=
  redirect_fallback_degraded_write (asciiBytes "https://example.com") .errQueueFull true
    (Or.inl rfl)

/-- Claim C6: a second `start()` while started returns AlreadyStarted, a
`stop()` before `start()` returns NotRunning, and a second `stop()` after
a clean stop returns NotRunning, each leaving the processor state (flag,
queue contents, worker pool) unchanged. -/
theorem lifecycle_misuse_rejected (p q : Processor) (d d2 : Bool)
    (hp : p.started = true) (hq : q.started = false) :
    start p = (.alreadyStarted, p)
    ∧ stop q d = (.notStarted, q)
    ∧ (stop p true).1 = .ok
    ∧ ((stop p true).2).started = false
    ∧ stop ((stop p true).2) d2 = (.notStarted, (stop p true).2) := by
  refine ⟨?_, ?_, ?_, ?_, ?_⟩ <;> simp [start, stop, hp, hq]

theorem lifecycle_misuse_rejected_witness :
    start (start (newProcessor defaultConfig)).2
      = (.alreadyStarted, (start (newProcessor defaultConfig)).2)
    ∧ stop (newProcessor defaultConfig) true
      = (.notStarted, newProcessor defaultConfig)
    ∧ (stop (start (newProcessor defaultConfig)).2 true).1 = .ok
    ∧ ((stop (start (newProcessor defaultConfig)).2 true).2).started = false
    ∧ stop ((stop (start (newProcessor defaultConfig)).2 true).2) true
      = (.notStarted, (stop (start (newProcessor defaultConfig)).2 true).2) :=
  lifecycle_misuse_rejected (start (newProcessor defaultConfig)).2
    (newProcessor defaultConfig) true true (by decide) (by decide)

/-- Claim C7 counterexample: the lifecycle is only the boolean `started`
flag, so after `start()` and a clean `stop()` (both returning Ok) a
further `start()` again returns Ok — the code does not prevent restart
after Stop, contradicting the claim that a subsequent `start()` cannot
return Ok. -/
theorem restart_after_stop_returns_ok :
    (start (newProcessor defaultConfig)).1 = .ok
    ∧ (stop (start (newProcessor defaultConfig)).2 true).1 = .ok
    ∧ (start (stop (start (newProcessor defaultConfig)).2 true).2).1 = .ok := by
  decide

/-- Claim C7 (amended): `start()` succeeds exactly when the `started`
flag is clear, launching exactly `workerCount` (further) workers and
setting the flag while touching nothing else; since a clean `stop()`
clears the flag, a subsequent `start()` returns Ok again (the restarted
workers see the already-cancelled context), so the only enforced
transitions are the flag toggles; `start()` from a started processor
still returns AlreadyStarted unchanged. -/
theorem start_requires_flag_clear (p : Processor) :
    ((start p).1 = .ok ↔ p.started = false)
    ∧ (p.started = false →
        start p = (.ok, { p with
                          started := true,
                          workers := p.workers + p.config.workerCount }))
    ∧ (p.started = true → start p = (.alreadyStarted, p))
    ∧ (p.started = true → (start ((stop p true).2)).1 = .ok) := by
  refine ⟨?_, ?_, ?_, ?_⟩
  · constructor
    · intro h
      cases hs : p.started
      · rfl
      · simp [start, hs] at h
    · intro h; simp [start, h]
  · intro h; simp [start, h]
  · intro h; simp [start, h]
  · intro h; simp [start, stop, h]

theorem start_requires_flag_clear_witness :
    ((start (newProcessor defaultConfig)).1 = .ok
      ↔ (newProcessor defaultConfig).started = false)
    ∧ ((newProcessor defaultConfig).started = false →
        start (newProcessor defaultConfig)
          = (.ok, { newProcessor defaultConfig with
                    started := true,
                    workers := (newProcessor defaultConfig).workers
                      + (newProcessor defaultConfig).config.workerCount }))
    ∧ ((newProcessor defaultConfig).started = true →
        start (newProcessor defaultConfig) = (.alreadyStarted, newProcessor defaultConfig))
    ∧ ((newProcessor defaultConfig).started = true →
        (start ((stop (newProcessor defaultConfig) true).2)).1 = .ok) :=
  start_requires_flag_clear (newProcessor defaultConfig)

/-- Claim C3: on a clean lifecycle state, `SubmitClick` on a started
processor enqueues and returns Ok when the queue is below capacity, returns
QueueFull without blocking or enqueueing when the queue is at capacity, and
returns a NotRunning-class error on a processor that is not started (which
after a clean `stop()` is also the begun-shutdown state, since `Stop`
clears the flag under the same lock); in every error case the queue is
unchanged. -/
theorem submit_nonblocking_contract (p : Processor) (e : ClickData) (pick : Bool)
    (hclean : CleanState p) :
    (p.started = true → p.jobQueue.length < p.config.bufferSize →
        submitClick p e pick = (.ok, { p with jobQueue := p.jobQueue ++ [e] }))
    ∧ (p.started = true → p.config.bufferSize ≤ p.jobQueue.length →
        submitClick p e pick = (.errQueueFull, p))
    ∧ (p.started = false →
        (submitClick p e pick).1.isNotRunning = true ∧ (submitClick p e pick).2 = p) := by
  refine ⟨?_, ?_, ?_⟩
  · intro hs hlen
    obtain ⟨hcancel, hclosed⟩ := hclean hs
    simp [submitClick, hs, hcancel, hclosed, hlen]
  · intro hs hlen
    obtain ⟨hcancel, hclosed⟩ := hclean hs
    simp [submitClick, hs, hcancel, hclosed, Nat.not_lt.mpr hlen]
  · intro hs
    simp [submitClick, hs, SubmitResult.isNotRunning]

theorem submit_nonblocking_contract_witness :
    ((start (newProcessor defaultConfig)).2.started = true →
        (start (newProcessor defaultConfig)).2.jobQueue.length
            < (start (newProcessor defaultConfig)).2.config.bufferSize →
        submitClick (start (newProcessor defaultConfig)).2 sampleClick false
          = (.ok, { (start (newProcessor defaultConfig)).2 with
                    jobQueue := (start (newProcessor defaultConfig)).2.jobQueue
                      ++ [sampleClick] }))
    ∧ ((start (newProcessor defaultConfig)).2.started = true →
        (start (newProcessor defaultConfig)).2.config.bufferSize
            ≤ (start (newProcessor defaultConfig)).2.jobQueue.length →
        submitClick (start (newProcessor defaultConfig)).2 sampleClick false
          = (.errQueueFull, (start (newProcessor defaultConfig)).2))
    ∧ ((start (newProcessor defaultConfig)).2.started = false →
        (submitClick (start (newProcessor defaultConfig)).2 sampleClick false).1.isNotRunning
            = true
        ∧ (submitClick (start (newProcessor defaultConfig)).2 sampleClick false).2
            = (start (newProcessor defaultConfig)).2) :=
  submit_nonblocking_contract (start (newProcessor defaultConfig)).2 sampleClick false
    (fun _ => ⟨rfl, rfl⟩)

/-- Claim C5: for every event the worker calls the store at most
`retryAttempts` times; the first success ends processing for the event
with exactly that many calls; if all `retryAttempts` attempts fail (the
store keeps failing and the shutdown signal never interrupts a backoff),
the loop makes exactly `retryAttempts` calls and ends in the reported
drop — the total function `processClickWithRetry` always returns one of
its three outcomes, never crashing. -/
theorem retry_budget_respected (r : Nat → Option StoreErr) (c : Nat → Bool) (m : Nat) :
    (processClickWithRetry r c m).2 ≤ m
    ∧ (∀ j, 1 ≤ j → j ≤ m →
        (∀ a, 1 ≤ a → a < j → (r a).isSome = true ∧ c a = false) →
        r j = none → processClickWithRetry r c m = (.success j, j))
    ∧ ((∀ a, 1 ≤ a → a ≤ m → (r a).isSome = true) → (∀ a, c a = false) →
        processClickWithRetry r c m = (.droppedAllFailed, m)) := by
  refine ⟨retryGo_count_le r c m m 1, ?_, ?_⟩
  · intro j h1 h2 h3 h4
    have h := retryGo_success r c m m 1 j h1 h2 h3 h4 (by omega)
    simpa [processClickWithRetry] using h
  · intro hall hc
    cases m with
    | zero => rfl
    | succ n =>
      have h := retryGo_allfail r c (n + 1) (n + 1) 1 (by omega) (by omega)
        (fun a ha hb => hall a ha hb) hc
      simpa [processClickWithRetry] using h

theorem retry_budget_respected_witness :
    (processClickWithRetry (fun _ => some .transient) (fun _ => false) 3).2 ≤ 3
    ∧ processClickWithRetry (fun _ => some .transient) (fun _ => false) 3
        = (.droppedAllFailed, 3) :=
  ⟨(retry_budget_respected (fun _ => some .transient) (fun _ => false) 3).1,
   (retry_budget_respected (fun _ => some .transient) (fun _ => false) 3).2.2
     (fun _ _ _ => rfl) (fun _ => rfl)⟩

/-- Claim C2 counterexample: against a store that always answers
`ErrAliasNotFound`, a worker with `retryAttempts = 3` makes all three
store calls before dropping the event — not the single call the claim
allows. `processClickWithRetry` never looks at which error came back. -/
theorem alias_not_found_still_retried :
    processClickWithRetry (fun _ => some .aliasNotFound) (fun _ => false) 3
      = (.droppedAllFailed, 3)
    ∧ (processClickWithRetry (fun _ => some .aliasNotFound) (fun _ => false) 3).2 ≠ 1 := by
  decide

/-- Claim C2 (amended): the worker treats `ErrAliasNotFound` exactly like
a transient failure — the retry loop is blind to the error kind — so an
unknown-alias event consumes the full retry budget (`retryAttempts` store
calls) before being dropped, instead of being abandoned after the first
failure. -/
theorem alias_not_found_uses_full_budget (c : Nat → Bool) (m : Nat)
    (hc : ∀ a, c a = false) :
    processClickWithRetry (fun _ => some .aliasNotFound) c m
      = processClickWithRetry (fun _ => some .transient) c m
    ∧ processClickWithRetry (fun _ => some .aliasNotFound) c m
      = (.droppedAllFailed, m) := by
  constructor
  · exact retryGo_error_blind (fun _ => some .aliasNotFound) (fun _ => some .transient)
      c m (fun _ => rfl) m 1
  · exact (retry_budget_respected (fun _ => some .aliasNotFound) c m).2.2
      (fun _ _ _ => rfl) hc

theorem alias_not_found_uses_full_budget_witness :
    processClickWithRetry (fun _ => some .aliasNotFound) (fun _ => false) 3
      = processClickWithRetry (fun _ => some .transient) (fun _ => false) 3
    ∧ processClickWithRetry (fun _ => some .aliasNotFound) (fun _ => false) 3
      = (.droppedAllFailed, 3) :=
  alias_not_found_uses_full_budget (fun _ => false) 3 (fun _ => rfl)

/-- Claim C4 counterexample: the delay is computed in Go `int64`
arithmetic, so it is not `retryBaseDelay * 2^(k-1)` for every `k < n`:
with `retryBaseDelay = 1` the delay before attempt 66 (after failed
attempt `k = 65`) wraps `1 << 64` to `0`, while the claimed value is
`2^64 ≠ 0`. -/
theorem backoff_delay_overflows :
    backoffDelay 1 65 = 0 ∧ (1 : Int) * 2 ^ (65 - 1) ≠ 0 := by
  decide

/-- Claim C4 (amended): the backoff delay the worker waits between failed
attempt `k ≥ 1` and attempt `k+1` is `retryBaseDelay * 2^(k-1)` computed
in wrapping `int64` arithmetic; whenever that product lies in the `int64`
range — in particular for every realistic configuration — it equals the
exact value `retryBaseDelay * 2^(k-1)` of the claim. -/
theorem backoff_delay_exponential (d : Int) (k : Nat) (hk : 1 ≤ k) :
    backoffDelay d k = wrap64 (d * 2 ^ (k - 1))
    ∧ (-(2 ^ 63) ≤ d * 2 ^ (k - 1) → d * 2 ^ (k - 1) < 2 ^ 63 →
        backoffDelay d k = d * 2 ^ (k - 1)) := by
  have h1 : backoffDelay d k = wrap64 (d * 2 ^ (k - 1)) := by
    unfold backoffDelay goShl1
    exact wrap64_mul_wrap64 d (2 ^ (k - 1))
  exact ⟨h1, fun ha hb => by rw [h1]; exact wrap64_eq_self _ ha hb⟩

theorem backoff_delay_exponential_witness :
    backoffDelay 1000000000 3 = 1000000000 * 2 ^ (3 - 1) :=
  (backoff_delay_exponential 1000000000 3 (by decide)).2 (by decide) (by decide)

/-- Claim C1: the clean-shutdown guarantee fails on the code. `Stop`
cancels the processor context before the workers have drained the queue,
and the `worker` select treats the done case and the queue-receive case
as equally ready, so the Go scheduler may legally resolve the select to
`ctx.Done()`. This theorem replays that execution: a one-worker processor
accepts `sampleClick` (submit returns Ok), `Stop` cancels and closes and
— the lone worker having exited at once via the done branch — returns Ok,
yet the worker made no `RecordClickAdvanced` call for the event (even
against a store that would accept it immediately) and reported no drop:
the accepted event is silently discarded on a clean shutdown. -/
theorem clean_shutdown_silently_loses_event :
    (start c1Proc0).1 = .ok
    ∧ (submitClick c1Proc1 sampleClick false).1 = .ok
    ∧ c1Proc2.jobQueue = [sampleClick]
    ∧ (stop c1Proc2 true).1 = .ok
    ∧ ((stop c1Proc2 true).2).ctxCancelled = true
    ∧ ((stop c1Proc2 true).2).queueClosed = true
    ∧ c1WorkerView.jobQueue = ((stop c1Proc2 true).2).jobQueue
    ∧ c1WorkerView.ctxCancelled = ((stop c1Proc2 true).2).ctxCancelled
    ∧ c1WorkerView.queueClosed = ((stop c1Proc2 true).2).queueClosed
    ∧ (c1WorkerView.queueClosed || !c1WorkerView.jobQueue.isEmpty) = true
    ∧ (workerRun alwaysOkStore 3 [.takeDone] c1WorkerView).exited = true
    ∧ (workerRun alwaysOkStore 3 [.takeDone] c1WorkerView).attempted = []
    ∧ (workerRun alwaysOkStore 3 [.takeDone] c1WorkerView).reportedDropped = []
    ∧ (workerRun alwaysOkStore 3 [.takeDone] c1WorkerView).jobQueue = [sampleClick] := by
  decide

end GURLS
